import Mathlib

/-!
# Verification of the reblok reactive-state-container engine

A shallow embedding, in Lean 4, of the core update/concurrency engine of the
`reblok` library (the evolved module `packages/reblok/lib/main.ts`, whose most
complete revision appears in the repository sources as the `create` / `batch` /
`droppable` / `from` / `hydrate` module).

Modelling conventions, shared by all sections:

* A container's state record `{data, loading, error}` is replaced wholesale by
  `changeState` whenever one of the three fields changes under JavaScript `===`;
  the `token : Nat` field models the *object identity* of the current state
  record (each committed change allocates a fresh record, so each commit bumps
  the token).  The `snapshot !== state` staleness guard of the source therefore
  becomes a token comparison.
* JavaScript `undefined` is `Option.none`; a stored error is `Option.some`.
* `===` / `Object.is` on data values is modelled by decidable equality of the
  Lean value; where identity of heap objects matters (the `shallow` helper),
  values carry explicit identity tags.
* Promises never run concurrently with synchronous code: a `set` with a future
  only records the snapshot token, and the settlement handlers are separate
  functions invoked later, exactly as on the single-threaded JS task queue.
-/

set_option linter.unusedSectionVars false
set_option linter.unnecessarySeqFocus false

namespace Reblok

/-! ## Container state and `changeState`

Source (`create`): `state` is `{data, loading, error}`; `changeState(change)`
builds `nextState = {...state, ...change}`, returns without notifying when all
three fields are `===`-equal, otherwise installs the new record and calls
`notify()`. -/

/-- The `{data, loading, error}` state of a container.  `token` models the
object identity of the current state record: the source compares state records
by reference (`snapshot !== state`), and every committed change allocates a
fresh record. -/
structure BlokState (α ε : Type) where
  data : α
  loading : Bool
  error : Option ε
  token : Nat
  deriving Repr, DecidableEq

variable {α ε : Type} [DecidableEq α] [DecidableEq ε]

/-- `changeState`: commit a fully-spread next state `{data := d, loading := l,
error := e}`; a no-op (and no notification) when all three fields are equal to
the current ones.  The returned `Bool` reports whether `notify()` ran. -/
def changeState (s : BlokState α ε) (d : α) (l : Bool) (e : Option ε) :
    BlokState α ε × Bool :=
  if d = s.data ∧ e = s.error ∧ l = s.loading then (s, false)
  else (⟨d, l, e, s.token + 1⟩, true)

/-! ## The `set` pipeline (mode-less paths)

Source (`create.set`): after the mode dispatch, a function argument is invoked
(a throw goes to `changeState({loading:false, error:e})`); a then-able argument
triggers `changeState({error:undefined, loading:true})`, captures
`snapshot = state` and registers settlement handlers; any other value lands in
`changeState({data: compare(next, state.data) ? state.data : next,
error: undefined, loading: false})`. -/

/-- The final, synchronous branch of `set`: a plain value is written through the
configured comparator (default `Object.is`). -/
def setValue (compare : α → α → Bool) (s : BlokState α ε) (v : α) :
    BlokState α ε × Bool :=
  changeState s (if compare v s.data then s.data else v) false none

/-- The updater-threw branch of `set`: `changeState({loading:false, error:e})`.
The thrown value is an `Option` because JavaScript can `throw undefined`
(the `from` aggregation throws its possibly-absent `firstError`). -/
def setUpdaterThrow (s : BlokState α ε) (e : Option ε) : BlokState α ε × Bool :=
  changeState s s.data false e

/-- The async branch of `set`, up to the suspension point:
`changeState({error:undefined, loading:true})`, then `snapshot = state`.
Returns the new state, whether `notify` ran, and the captured snapshot token. -/
def setFutureStart (s : BlokState α ε) : BlokState α ε × Bool × Nat :=
  let r := changeState s s.data true none
  (r.1, r.2, r.1.token)

/-- The fulfilment handler of the async branch: discard when the snapshot no
longer is the current state record, otherwise
`changeState({data: value, loading:false, error:undefined})`. -/
def settleResolve (s : BlokState α ε) (snapshot : Nat) (v : α) :
    BlokState α ε × Bool :=
  if snapshot ≠ s.token then (s, false)
  else changeState s v false none

/-- The rejection handler of the async branch: discard when stale, otherwise
`changeState({loading:false, error: e?.name === "AbortError" ? undefined : e})`.
`isAbortError` models the `e?.name === "AbortError"` probe. -/
def settleReject (s : BlokState α ε) (snapshot : Nat) (isAbortError : Bool)
    (e : ε) : BlokState α ε × Bool :=
  if snapshot ≠ s.token then (s, false)
  else changeState s s.data false (if isAbortError then none else some e)

/-- The C1 race: `set(futureA)` then `set(futureB)` are issued before either
settles; futureB resolves first with `vB`, futureA resolves afterwards with
`vA`. -/
def raceScenario (s0 : BlokState α ε) (vA vB : α) : BlokState α ε :=
  let a := setFutureStart s0
  let b := setFutureStart a.1
  let afterB := settleResolve b.1 b.2.2 vB
  (settleResolve afterB.1 a.2.2 vA).1

/-! ## `wait()` (C4)

Source (`create.wait`): a cached `waitPromise` is returned as-is; while loading
a fresh promise is created, cached, and settled by a one-shot listener on the
next notification (`if (state.error) reject(state.error) else
resolve(state.data)`); otherwise `Promise.reject(state.error)` is returned
immediately (also when `state.error` is `undefined`). -/

/-- What a call to `wait()` hands back: the cached pending future, a freshly
created pending future (identified by its allocation id), or an
immediately-rejected future carrying the current `error` (which is `none` when
the container has no error — the source rejects with `undefined` then). -/
inductive WaitRes (ε : Type) where
  | cachedPending (id : Nat)
  | newPending (id : Nat)
  | immediateRejected (reason : Option ε)
  deriving Repr, DecidableEq

/-- A container together with its `waitPromise` cache.  `nextId` allocates
promise identities. -/
structure BlokW (α ε : Type) where
  st : BlokState α ε
  waitPromise : Option Nat
  nextId : Nat
  deriving Repr, DecidableEq

/-- `wait()`. -/
def wait (b : BlokW α ε) : BlokW α ε × WaitRes ε :=
  match b.waitPromise with
  | some id => (b, .cachedPending id)
  | none =>
    if b.st.loading then
      ({ b with waitPromise := some b.nextId, nextId := b.nextId + 1 },
        .newPending b.nextId)
    else (b, .immediateRejected b.st.error)

/-- How the pending future produced by `wait()` settles. -/
inductive WaitOutcome (α ε : Type) where
  | resolved (v : α)
  | rejectedWith (e : ε)
  deriving Repr, DecidableEq

/-- The one-shot listener registered by `wait()` while loading, run at the next
notification: it unsubscribes, clears the cache, and rejects with the error if
one is set (`if (state.error)`), else resolves with the data. -/
def waitListenerFire (b : BlokW α ε) : BlokW α ε × WaitOutcome α ε :=
  ({ b with waitPromise := none },
    match b.st.error with
    | some e => .rejectedWith e
    | none => .resolved b.st.data)

/-! ## JavaScript values and `shallow` (C5)

`shallow` (evolved revision, the one `from` uses) duck-types its arguments:
array-ness via `a.every === testArray.every`, date-ness via
`a.getTime === testDate.getTime`, then a key-wise `===` sweep for plain
objects.  The model carries explicit identity tags: two values are `===`
exactly when they are the same Lean value (distinct allocations get distinct
tags; a primitive's tag encodes its primitive value, so primitive `===` is
value equality as in JavaScript).  Array elements and object fields are stored
as identity tags, since `shallow` only ever compares them with `===`. -/

/-- A JavaScript value as inspected by `shallow`: a primitive (with its
truthiness), an array of element identities, a date, or a plain object mapping
keys to field-value identities.  Arrays, dates and objects are always truthy.
NaN (`!==` itself) and falsy error values are outside the model. -/
inductive JVal where
  | prim (tag : Nat) (truthy : Bool)
  | jarr (tag : Nat) (elems : List Nat)
  | jdate (tag : Nat) (time : Int)
  | jobj (tag : Nat) (fields : List (String × Nat))
  deriving Repr, DecidableEq

/-- JavaScript truthiness. -/
def JVal.truthyB : JVal → Bool
  | .prim _ t => t
  | _ => true

/-- `o[key]` on a plain object: `none` models the `undefined` an absent key
yields (explicitly-`undefined` fields are not modelled). -/
def jsLookup (fields : List (String × Nat)) (k : String) : Option Nat :=
  (fields.find? (fun p => p.1 == k)).map (fun p => p.2)

/-- The `shallow` comparison, clause for clause from the source: `===`
short-circuit; mixed-truthiness and both-falsy rejections; arrays compared by
length and element-wise `===`; dates by `getTime()`; plain objects by a
two-sided key sweep with `===` on field values; everything else `false`. -/
def shallow (a b : JVal) : Bool :=
  if a = b then true
  else if (a.truthyB && !b.truthyB) || (b.truthyB && !a.truthyB) then false
  else if !a.truthyB && !b.truthyB then false
  else
    match a, b with
    | .jarr _ ea, .jarr _ eb =>
      if ea.length ≠ eb.length then false
      else (ea.zip eb).all (fun p => p.1 == p.2)
    | .jarr _ _, _ => false
    | _, .jarr _ _ => false
    | .jdate _ ta, .jdate _ tb => ta == tb
    | .jdate _ _, _ => false
    | _, .jdate _ _ => false
    | .jobj _ fa, .jobj _ fb =>
      (fa.all fun p => jsLookup fa p.1 == jsLookup fb p.1) &&
      (fb.all fun p => jsLookup fa p.1 == jsLookup fb p.1)
    | _, _ => false

/-! ## Derived (linked) containers: `from` / `handleChange` (C5)

Source (`from.handleChange`): one left-to-right pass over the source entries
counts loading sources and errored (non-loading, `error` truthy) sources and
remembers the first error; then either (all errored) `set(() => {throw
firstError})`, or (some loading) `set(forever)` — a never-settling future — or
the selector runs through a reducer that returns the previous value when
`shallow(next, prev)`. -/

/-- Accumulator of `handleChange`'s scan loop. -/
structure ScanResult (ε : Type) where
  loadingCount : Nat
  errorCount : Nat
  firstError : Option ε
  deriving Repr, DecidableEq

/-- One iteration of the scan loop.  `error` truthiness is modelled by
`Option.isSome` (falsy error values are outside the model). -/
def scanStep (acc : ScanResult ε) (x : BlokState α ε) : ScanResult ε :=
  if x.loading then { acc with loadingCount := acc.loadingCount + 1 }
  else if x.error.isSome then
    { acc with
      errorCount := acc.errorCount + 1
      firstError := if acc.firstError.isNone then x.error else acc.firstError }
  else acc

/-- The whole scan, in entry order. -/
def scanSources (sources : List (BlokState α ε)) : ScanResult ε :=
  sources.foldl scanStep ⟨0, 0, none⟩

/-- `handleChange` of a derived container.  The selector is total and
synchronous (the model covers value-returning selectors); it receives the
current source values in entry order and the previous derived value, exactly as
the reducer passes `blok.data` for `prev`.  The derived container was built by
`create(undefined, {...options})` with the default comparator `Object.is`,
modelled by decidable equality on `JVal`. -/
def handleChange (sources : List (BlokState JVal ε))
    (selector : List JVal → JVal → JVal) (s : BlokState JVal ε) :
    BlokState JVal ε × Bool :=
  let r := scanSources sources
  if r.errorCount = sources.length then
    -- blok.set(() => { throw firstError })
    setUpdaterThrow s r.firstError
  else if r.loadingCount ≠ 0 then
    -- blok.set(forever): the async branch starts and never settles
    let p := setFutureStart s
    (p.1, p.2.1)
  else
    -- blok.set((prev, ctx) => { const next = selector(values, prev, ctx);
    --   if (shallow(next, prev)) return prev; return next })
    let next := selector (sources.map (fun x => x.data)) s.data
    let res := if shallow next s.data then s.data else next
    setValue (fun a b => a == b) s res

/-! ## `droppable()` and the concurrency-controller plumbing of `set` (C6)

Source (`droppable`): when `context.updatingToken` is set the callback is not
invoked and the mode returns `undefined`; otherwise a fresh token object is
stored, the callback runs synchronously, and a controller is returned whose
`done()` deletes the token if it still is the stored one.

Source (`create.set`): `let cc` is a local of each `set` invocation, assigned
only inside the `if (mode)` branch — which returns immediately after the
assignment.  The invocation that actually reaches the async branch is the
re-entrant `blok.set(nextData)` with no mode, whose own `cc` is never
assigned; the settlement handlers therefore always see
`typeof cc !== "object"` and never call `cc.done`. -/

/-- The per-container concurrency context bag, as used by `droppable`:
`updatingToken` holds the identity of the in-flight token object, if any. -/
structure CCtx where
  updatingToken : Option Nat
  deriving Repr, DecidableEq

/-- The controller `droppable` returns; `token` is the identity of the token
object its closure captured. -/
structure DropController where
  token : Nat
  deriving Repr, DecidableEq

/-- `droppable()(context, callback)`: returns the context after the call,
whether `callback` was invoked, and the controller (`none` models the
`return;` taken while an update is in flight). -/
def droppableMode (ctx : CCtx) (freshTok : Nat) :
    CCtx × Bool × Option DropController :=
  match ctx.updatingToken with
  | some _ => (ctx, false, none)
  | none => (⟨some freshTok⟩, true, some ⟨freshTok⟩)

/-- The controller's `done()`: delete `updatingToken` when it still is the
captured token object. -/
def DropController.doneFn (c : DropController) (ctx : CCtx) : CCtx :=
  if ctx.updatingToken = some c.token then ⟨none⟩ else ctx

/-- A container mid-flight through a droppable-guarded async `set`: its state,
the concurrency context, a token allocator, and — when an async update is in
flight — the data captured by that update's settlement handlers: the snapshot
token and the handler-visible `cc` (the invocation-local controller variable,
`none` when the invocation never assigned it). -/
structure GuardedBlok (α ε : Type) where
  st : BlokState α ε
  ctx : CCtx
  nextTok : Nat
  pending : Option (Nat × Option DropController)
  deriving Repr, DecidableEq

/-- `blok.set(future, droppable())`, traced through the source: the outer
invocation enters the `if (mode)` branch and calls
`mode(concurrentContext, () => blok.set(nextData))`.  When `droppable` runs the
callback, the *inner* mode-less invocation performs the async branch — and its
local `cc` is never assigned (only the `if (mode)` branch of its own frame
would assign it), so the settlement handlers capture `cc = undefined`.  The
outer frame assigns the returned controller to `concurrentController` after
the inner frame already finished. -/
def setAsyncDroppable (g : GuardedBlok α ε) : GuardedBlok α ε × Bool :=
  match droppableMode g.ctx g.nextTok with
  | (ctx1, true, _) =>
    let p := setFutureStart g.st
    ({ st := p.1, ctx := ctx1, nextTok := g.nextTok + 1
       pending := some (p.2.2, none) }, true)
  | (ctx1, false, _) => ({ g with ctx := ctx1 }, false)

/-- The fulfilment handler of a guarded async update: `if (typeof cc ===
"object") cc.done?.()`, then the snapshot guard and `changeState`. -/
def settleGuardedResolve (g : GuardedBlok α ε) (v : α) : GuardedBlok α ε :=
  match g.pending with
  | none => g
  | some (snap, cc) =>
    let ctx1 := match cc with
      | some c => c.doneFn g.ctx
      | none => g.ctx
    { g with ctx := ctx1, st := (settleResolve g.st snap v).1, pending := none }

/-! ## Disposal (C8)

Source (`create.dispose`): `if (disposed) return; disposed = true;
if (autoRefreshTimer) clearTimeout(autoRefreshTimer); changeEmitter.clear()`.
The auto-refresh loop's scheduled callback begins with `if (disposed) return;`
before re-running the initializer and rescheduling.

Source (`from`): the returned object *overrides* `dispose` via
`Object.assign(blok, { dispose() { while (unsubscribes.length)
unsubscribes.shift()?.(); } })` — the base `dispose` is not called. -/

/-- An Emitter's handler list (`createEmitter`); handlers carry identities. -/
structure Emitter where
  handlers : List Nat
  deriving Repr, DecidableEq

/-- The lifecycle slice of a plain `create` container: its change emitter, the
`disposed` flag, and whether an auto-refresh timeout is currently scheduled. -/
structure CreateLifecycle where
  changeEmitter : Emitter
  disposed : Bool
  autoRefreshTimer : Bool
  deriving Repr, DecidableEq

/-- `create`'s `dispose()`. -/
def disposeCreate (c : CreateLifecycle) : CreateLifecycle :=
  if c.disposed then c
  else { changeEmitter := ⟨[]⟩, disposed := true, autoRefreshTimer := false }

/-- An auto-refresh timer firing: nothing happens without a scheduled timer;
a fired callback checks `disposed` before setting and rescheduling.  The
returned `Bool` reports whether a refresh (`blok.set(initialData)`) ran. -/
def refreshTick (c : CreateLifecycle) : CreateLifecycle × Bool :=
  if !c.autoRefreshTimer then (c, false)
  else if c.disposed then ({ c with autoRefreshTimer := false }, false)
  else ({ c with autoRefreshTimer := true }, true)

/-- A derived container's lifecycle: the underlying `create` container, the
handler lists of its sources' emitters, and the pending `unsubscribes` list of
`(source index, handler id)` closures produced by `x.listen(handleChange)`. -/
structure FromBlok where
  base : CreateLifecycle
  srcHandlers : List (List Nat)
  unsubscribes : List (Nat × Nat)
  deriving Repr, DecidableEq

/-- The `dispose` that `from` splices over the base one: drain `unsubscribes`,
invoking each removal closure once (each closure splices its handler out of its
source's list; the closures' own `active` flags never matter here because the
drained list invokes each at most once). -/
def disposeFrom (f : FromBlok) : FromBlok :=
  { base := f.base
    srcHandlers := f.unsubscribes.foldl
      (fun hs p => hs.set p.1 ((hs.getD p.1 []).erase p.2)) f.srcHandlers
    unsubscribes := [] }

/-! ## Hydration store (C9)

Source (`hydrate`): `hydratedData` maps keys to `{data?, members?, blok?}`
slots; `dehydrate()` returns the cached `lastDehyratedData` when present, else
rebuilds the collection from the slots that have a live `blok` back-reference
(family slots collect `[memberKey, blok.data]` pairs) and caches it.  The
listener installed by `getHydrateOf` clears the cache whenever an attached
container's data changes while neither loading nor errored. -/

/-- A family-member slot: pre-seeded value and live back-reference. -/
structure MemberSlot (α : Type) where
  data : Option α
  blokId : Option Nat
  deriving Repr, DecidableEq

/-- A top-level hydration slot (the source's `HydratedData`, whose `members`
nesting is one level deep in every use). -/
structure HydSlot (α : Type) where
  data : Option α
  members : Option (List (Nat × MemberSlot α))
  blokId : Option Nat
  deriving Repr, DecidableEq

/-- One entry of a dehydrated collection: plain `{data}` or `{members}`. -/
inductive DehydEntry (α : Type) where
  | dataEntry (d : α)
  | membersEntry (ms : List (Nat × α))
  deriving Repr, DecidableEq

/-- The hydration store.  The cached collection carries an allocation token
(`lastDehyratedData` keeps the source's spelling): the source caches the
collection *array*, and reference identity of that array is what
`expect(data).toBe(data2)` observes; a rebuild allocates a fresh array. -/
structure HydState (α : Type) where
  hydratedData : List (Nat × HydSlot α)
  lastDehyratedData : Option (Nat × List (Nat × DehydEntry α))
  nextColTok : Nat
  deriving Repr, DecidableEq

/-- The collection entry a slot contributes, if any: the loop `continue`s on
slots without a live `blok`; member lists keep only members with a live `blok`.
`env` maps a live container id to its current `data`.  (`List.filterMap` is
the push-into-collection loop: in order, skipping the `continue`d slots.) -/
def entryOf (env : Nat → α) (p : Nat × HydSlot α) : Option (Nat × DehydEntry α) :=
  match p.2.members with
  | some ms =>
    some (p.1, .membersEntry (ms.filterMap
      (fun m => m.2.blokId.map (fun b => (m.1, env b)))))
  | none => p.2.blokId.map (fun b => (p.1, .dataEntry (env b)))

/-- The rebuild loop of `dehydrate()`. -/
def buildCollection (slots : List (Nat × HydSlot α)) (env : Nat → α) :
    List (Nat × DehydEntry α) :=
  slots.filterMap (entryOf env)

/-- `dehydrate()`: serve the cache when present, else rebuild and cache.
Returns the store and the `(identity, contents)` of the returned collection. -/
def dehydrate (h : HydState α) (env : Nat → α) :
    HydState α × Nat × List (Nat × DehydEntry α) :=
  match h.lastDehyratedData with
  | some c => (h, c)
  | none =>
    let c := buildCollection h.hydratedData env
    ({ h with
        lastDehyratedData := some (h.nextColTok, c)
        nextColTok := h.nextColTok + 1 },
      (h.nextColTok, c))

/-- The change listener `getHydrateOf` installs on an attached container: bail
out while the container is errored or loading or when `prevData === blok.data`;
otherwise remember the new data and clear `lastDehyratedData` (and ping the
dehydration subscribers).  Returns the store and the listener's updated
`prevData`. -/
def handleBlokChange (h : HydState α) (loading : Bool) (error : Bool)
    (prevData curData : α) : HydState α × α :=
  if error || loading then (h, prevData)
  else if prevData = curData then (h, prevData)
  else ({ h with lastDehyratedData := none }, curData)

/-- Replace every pre-seeded snapshot value in the table (the slot `data`
fields, at both levels) while keeping keys, member structure and live
back-references.  Used to state that dehydration never reads the pre-seeded
values. -/
def scrubSlot (p : Nat × HydSlot α) : Nat × HydSlot α :=
  (p.1,
    { data := none
      members := p.2.members.map
        (List.map (fun m => (m.1, ⟨none, m.2.blokId⟩)))
      blokId := p.2.blokId })

/-! ## Batch / transaction layer (C2, C10)

Source (`batch`, `notify`): a module-global `mutationCount` and pending
`batchChanges : Set<VoidFunction>`; `notify` defers itself into the set while a
transaction is open; `batch` resets the set when entering at depth zero,
increments, runs the body, and in a `finally` decrements and — back at depth
zero — invokes every queued notify once.  Containers are identified by the
identity of their `notify` closure; the `Set` dedupes repeated additions. -/

/-- `Set.prototype.add` on the pending set (insertion ordered, deduplicating). -/
def addChange (c : Nat) (l : List Nat) : List Nat :=
  if c ∈ l then l else l ++ [c]

/-- The module globals plus the observable log of delivered notifications. -/
structure Sys where
  mutationCount : Nat
  batchChanges : List Nat
  emitted : List Nat
  deriving Repr, DecidableEq

/-- A container's `notify`: deferred into the pending set while a transaction
is open, otherwise the emitter fires at once (logged in `emitted`). -/
def notify (c : Nat) (s : Sys) : Sys :=
  if s.mutationCount ≠ 0 then
    { s with batchChanges := addChange c s.batchChanges }
  else { s with emitted := s.emitted ++ [c] }

/-- The flush loop `for (const x of batchChanges) x()`, run once the counter is
back at zero (each queued notify then emits; the set itself is only reset at
the next outermost `batch` entry, as in the source). -/
def flushChanges (s : Sys) : Sys :=
  s.batchChanges.foldl (fun acc c => notify c acc) s

/-- A synchronous body run (possibly) inside `batch`: container mutations that
reach `notify`, a `throw`, sequencing, and nested `batch` calls. -/
inductive Prog where
  | mutate (c : Nat)
  | throwErr (e : Nat)
  | seq (p q : Prog)
  | batch (p : Prog)
  deriving Repr, DecidableEq

/-- Run a body.  `batch` mirrors the source's try/finally: the decrement and
the depth-zero flush happen whether or not the body threw, and the exception
(second component) propagates to the caller. -/
def runProg : Prog → Sys → Sys × Option Nat
  | .mutate c, s => (notify c s, none)
  | .throwErr e, s => (s, some e)
  | .seq p q, s =>
    match runProg p s with
    | (s1, some e) => (s1, some e)
    | (s1, none) => runProg q s1
  | .batch p, s =>
    let s0 : Sys := if s.mutationCount = 0 then { s with batchChanges := [] } else s
    let s1 : Sys := { s0 with mutationCount := s0.mutationCount + 1 }
    let r : Sys × Option Nat := runProg p s1
    let s3 : Sys := { r.1 with mutationCount := r.1.mutationCount - 1 }
    (if s3.mutationCount = 0 then flushChanges s3 else s3, r.2)

/-- The body never throws. -/
def noThrow : Prog → Bool
  | .mutate _ => true
  | .throwErr _ => false
  | .seq p q => noThrow p && noThrow q
  | .batch p => noThrow p

/-- The containers a (non-throwing) body mutates, in program order. -/
def touched : Prog → List Nat
  | .mutate c => [c]
  | .throwErr _ => []
  | .seq p q => touched p ++ touched q
  | .batch p => touched p

/-- Fold a mutation trace into a pending set. -/
def addAll (l acc : List Nat) : List Nat :=
  l.foldl (fun a c => addChange c a) acc

/-! ## Theorems

Each claim's theorem carries the claim id in its doc comment; helper lemmas
(shared freely) come first where needed. -/

/-- C1: the most recent `set` wins.  First conjunct: in the concrete race —
`set(futureA)`, `set(futureB)`, futureB resolves with `vB`, then futureA
resolves with `vA` — the container ends settled on `vB`; futureA's late
settlement is discarded by the snapshot-token guard.  Second conjunct: any
settlement whose snapshot token no longer matches the current state record is
discarded outright, so out-of-order settlement never resurrects a stale
value. -/
theorem set_last_request_wins (s0 : BlokState α ε) (vA vB : α) :
    ((raceScenario s0 vA vB).data = vB ∧
      (raceScenario s0 vA vB).loading = false ∧
      (raceScenario s0 vA vB).error = none) ∧
    (∀ (s : BlokState α ε) (snap : Nat) (v : α), snap ≠ s.token →
      settleResolve s snap v = (s, false)) := by
  constructor
  · unfold raceScenario setFutureStart settleResolve changeState
    split_ifs <;> simp_all
  · intro s snap v h
    simp [settleResolve, h]

/-- Witness for C1: the race run from a settled container holding 0, with
futureA resolving to 1 and futureB to 2; and a concrete stale settlement
being discarded. -/
theorem set_last_request_wins_witness :
    (raceScenario (⟨0, false, none, 0⟩ : BlokState Nat Nat) 1 2).data = 2 ∧
    settleResolve (⟨5, false, none, 3⟩ : BlokState Nat Nat) 0 9 =
      (⟨5, false, none, 3⟩, false) :=
  ⟨(set_last_request_wins ⟨0, false, none, 0⟩ 1 2).1.1,
    (set_last_request_wins ⟨0, false, none, 0⟩ 1 2).2 ⟨5, false, none, 3⟩ 0 9
      (by decide)⟩

/-- C3 counterexample: on a container holding an error (`data 0`, settled,
`error 7`), `set(0)` with `0` equal to the current data under the default
comparator still notifies — the write clears the stored error, `changeState`
sees the `error` field change and fires.  This refutes "triggers no
notification ... whatever the container's current loading/error status is". -/
theorem set_equal_notifies_when_errored :
    (setValue (fun a b => a == b)
        (⟨0, false, some 7, 0⟩ : BlokState Nat Nat) 0).2 = true := by
  decide

/-- C3 (amended): when `set(x)` finds `x` equal to the current data under the
configured comparator, `data` always keeps its prior reference; if the
container is settled without an error (`loading = false`, no `error` to
clear), there is no state change and no notification at all; but if the
container is loading or holds an error, the same call clears that status —
the result is settled (`loading = false`) with `error` cleared to `undefined`
— and a notification does fire. -/
theorem set_equal_keeps_reference (compare : α → α → Bool) (s : BlokState α ε)
    (v : α) (hcmp : compare v s.data = true) :
    (setValue compare s v).1.data = s.data ∧
    (s.loading = false → s.error = none → setValue compare s v = (s, false)) ∧
    (s.loading = true ∨ s.error ≠ none →
      (setValue compare s v).1.loading = false ∧
      (setValue compare s v).1.error = none ∧
      (setValue compare s v).2 = true) := by
  unfold setValue changeState
  refine ⟨?_, ?_, ?_⟩
  · simp only [hcmp, if_true]
    split_ifs <;> simp
  · intro hl he
    simp [hcmp, hl, he]
  · intro hst
    have hcond : ¬ ((if compare v s.data then s.data else v) = s.data ∧
        (none : Option ε) = s.error ∧ false = s.loading) := by
      rcases hst with hl | he
      · simp [hl]
      · rintro ⟨-, he2, -⟩
        exact he he2.symm
    rw [if_neg hcond]
    exact ⟨rfl, rfl, rfl⟩

/-- Witness for C3 (amended): a settled error-free container holding 3 (no
notification), a loading container (status cleared, notified), and an errored
container (error cleared, notified). -/
theorem set_equal_keeps_reference_witness :
    (setValue (fun a b => a == b) (⟨3, false, none, 0⟩ : BlokState Nat Nat)
        3).1.data = 3 ∧
    setValue (fun a b => a == b) (⟨3, false, none, 0⟩ : BlokState Nat Nat) 3 =
      (⟨3, false, none, 0⟩, false) ∧
    ((setValue (fun a b => a == b) (⟨3, true, none, 0⟩ : BlokState Nat Nat)
        3).1.loading = false ∧
      (setValue (fun a b => a == b) (⟨3, true, none, 0⟩ : BlokState Nat Nat)
        3).1.error = none ∧
      (setValue (fun a b => a == b) (⟨3, true, none, 0⟩ : BlokState Nat Nat)
        3).2 = true) ∧
    ((setValue (fun a b => a == b) (⟨3, false, some 7, 0⟩ : BlokState Nat Nat)
        3).1.loading = false ∧
      (setValue (fun a b => a == b) (⟨3, false, some 7, 0⟩ : BlokState Nat Nat)
        3).1.error = none ∧
      (setValue (fun a b => a == b) (⟨3, false, some 7, 0⟩ : BlokState Nat Nat)
        3).2 = true) :=
  ⟨(set_equal_keeps_reference (fun a b => a == b) ⟨3, false, none, 0⟩ 3
      (by decide)).1,
    (set_equal_keeps_reference (fun a b => a == b) ⟨3, false, none, 0⟩ 3
      (by decide)).2.1 rfl rfl,
    (set_equal_keeps_reference (fun a b => a == b) ⟨3, true, none, 0⟩ 3
      (by decide)).2.2 (Or.inl rfl),
    (set_equal_keeps_reference (fun a b => a == b) ⟨3, false, some 7, 0⟩ 3
      (by decide)).2.2 (Or.inr (by decide))⟩

/-- C4 counterexample: on a settled container with *no* error (`data 5`),
`wait()` still returns an immediately-rejected future (its rejection reason is
the `undefined` error), refuting "returns an immediately-rejected future only
in the has-error case". -/
theorem wait_settled_without_error_rejects :
    wait (⟨⟨5, false, none, 0⟩, none, 0⟩ : BlokW Nat Nat) =
      (⟨⟨5, false, none, 0⟩, none, 0⟩, .immediateRejected none) := by
  decide

/-- C4 (amended): `wait()` returns a future that resolves with `data` once the
container settles and rejects with `error` on a failed settlement; if the
container is already settled (not loading) it returns an immediately-rejected
future whose reason is the current `error` — including the no-error case,
where the reason is `undefined`; and repeated `wait()` calls during one
loading episode return the same cached pending future. -/
theorem wait_behaviour (b : BlokW α ε) :
    (b.waitPromise = none → b.st.loading = false →
      wait b = (b, .immediateRejected b.st.error)) ∧
    (b.waitPromise = none → b.st.loading = true →
      (wait b).2 = .newPending b.nextId ∧
      (wait b).1.waitPromise = some b.nextId ∧
      wait (wait b).1 = ((wait b).1, .cachedPending b.nextId)) ∧
    (∀ e, b.st.error = some e → (waitListenerFire b).2 = .rejectedWith e) ∧
    (b.st.error = none →
      (waitListenerFire b).2 = .resolved b.st.data) ∧
    (waitListenerFire b).1.waitPromise = none := by
  refine ⟨fun hw hl => ?_, fun hw hl => ?_, fun e he => ?_, fun he => ?_, ?_⟩
  · simp [wait, hw, hl]
  · simp [wait, hw, hl]
  · simp [waitListenerFire, he]
  · simp [waitListenerFire, he]
  · simp [waitListenerFire]

/-- Witness for C4 (amended): a loading container (`data 1`) for the caching
conjuncts, plus listener settlement on an errored and on a clean container. -/
theorem wait_behaviour_witness :
    wait (⟨⟨5, false, some 9, 0⟩, none, 0⟩ : BlokW Nat Nat) =
      (⟨⟨5, false, some 9, 0⟩, none, 0⟩, .immediateRejected (some 9)) ∧
    (wait (⟨⟨1, true, none, 0⟩, none, 4⟩ : BlokW Nat Nat)).2 = .newPending 4 ∧
    wait (wait (⟨⟨1, true, none, 0⟩, none, 4⟩ : BlokW Nat Nat)).1 =
      ((wait (⟨⟨1, true, none, 0⟩, none, 4⟩ : BlokW Nat Nat)).1,
        .cachedPending 4) ∧
    (waitListenerFire (⟨⟨1, false, some 9, 5⟩, some 4, 5⟩ : BlokW Nat Nat)).2 =
      .rejectedWith 9 ∧
    (waitListenerFire (⟨⟨2, false, none, 5⟩, some 4, 5⟩ : BlokW Nat Nat)).2 =
      .resolved 2 :=
  ⟨(wait_behaviour ⟨⟨5, false, some 9, 0⟩, none, 0⟩).1 rfl rfl,
    ((wait_behaviour ⟨⟨1, true, none, 0⟩, none, 4⟩).2.1 rfl rfl).1,
    ((wait_behaviour ⟨⟨1, true, none, 0⟩, none, 4⟩).2.1 rfl rfl).2.2,
    (wait_behaviour ⟨⟨1, false, some 9, 5⟩, some 4, 5⟩).2.2.1 9 rfl,
    (wait_behaviour ⟨⟨2, false, none, 5⟩, some 4, 5⟩).2.2.2.1 rfl⟩

/-- C7: when a `set` given a future is rejected (and the settlement is not
stale), a non-cancellation reason is stored as the container's `error` and a
notification is delivered through the normal notify mechanism; a
cancellation-class rejection (`name === "AbortError"`) is never stored: the
container's `error` stays `undefined`, so the rejection never surfaces to
observers as an error. -/
theorem reject_stores_error_except_abort (s : BlokState α ε) (snap : Nat)
    (e : ε) (hsnap : snap = s.token) (hl : s.loading = true) :
    (settleReject s snap false e).1.error = some e ∧
    (settleReject s snap false e).1.loading = false ∧
    (settleReject s snap false e).2 = true ∧
    (settleReject s snap false e).1.data = s.data ∧
    (settleReject s snap true e).1.error = none ∧
    (settleReject s snap true e).1.data = s.data := by
  unfold settleReject changeState
  simp only [hsnap]
  refine ⟨?_, ?_, ?_, ?_, ?_, ?_⟩ <;> split_ifs <;> simp_all

/-- Witness for C7: a loading container with matching snapshot, rejected with
reason 9 (stored) and with an AbortError (suppressed). -/
theorem reject_stores_error_except_abort_witness :
    (settleReject (⟨0, true, none, 2⟩ : BlokState Nat Nat) 2 false 9).1.error =
      some 9 ∧
    (settleReject (⟨0, true, none, 2⟩ : BlokState Nat Nat) 2 true 9).1.error =
      none :=
  ⟨(reject_stores_error_except_abort ⟨0, true, none, 2⟩ 2 9 rfl rfl).1,
    (reject_stores_error_except_abort ⟨0, true, none, 2⟩ 2 9 rfl
      rfl).2.2.2.2.1⟩

lemma scanStep_loadingCount (acc : ScanResult ε) (x : BlokState α ε) :
    (scanStep acc x).loadingCount =
      acc.loadingCount + (if x.loading then 1 else 0) := by
  unfold scanStep
  split_ifs <;> simp_all

lemma scanStep_errorCount (acc : ScanResult ε) (x : BlokState α ε) :
    (scanStep acc x).errorCount =
      acc.errorCount + (if !x.loading && x.error.isSome then 1 else 0) := by
  unfold scanStep
  split_ifs <;> simp_all

lemma scanStep_firstError (acc : ScanResult ε) (x : BlokState α ε) :
    (scanStep acc x).firstError =
      if acc.firstError.isSome then acc.firstError
      else if !x.loading && x.error.isSome then x.error else none := by
  unfold scanStep
  rcases h : acc.firstError with _ | v <;> split_ifs <;>
    simp_all [Option.isNone_iff_eq_none]

lemma foldl_scanStep_loadingCount (l : List (BlokState α ε))
    (acc : ScanResult ε) :
    (l.foldl scanStep acc).loadingCount =
      acc.loadingCount + l.countP (fun x => x.loading) := by
  induction l generalizing acc with
  | nil => simp
  | cons x t ih =>
    rw [List.foldl_cons, ih, scanStep_loadingCount, List.countP_cons]
    split_ifs <;> (try simp_all) <;> omega

lemma foldl_scanStep_errorCount (l : List (BlokState α ε))
    (acc : ScanResult ε) :
    (l.foldl scanStep acc).errorCount =
      acc.errorCount + l.countP (fun x => !x.loading && x.error.isSome) := by
  induction l generalizing acc with
  | nil => simp
  | cons x t ih =>
    rw [List.foldl_cons, ih, scanStep_errorCount, List.countP_cons]
    split_ifs <;> (try simp_all) <;> omega

lemma foldl_scanStep_firstError_some (l : List (BlokState α ε))
    (acc : ScanResult ε) (h : acc.firstError.isSome) :
    (l.foldl scanStep acc).firstError = acc.firstError := by
  induction l generalizing acc with
  | nil => rfl
  | cons x t ih =>
    have h2 : (scanStep acc x).firstError = acc.firstError := by
      rw [scanStep_firstError]
      simp [h]
    rw [List.foldl_cons, ih _ (by rw [h2]; exact h), h2]

lemma scanSources_loadingCount (l : List (BlokState α ε)) :
    (scanSources l).loadingCount = l.countP (fun x => x.loading) := by
  unfold scanSources
  rw [foldl_scanStep_loadingCount]
  simp

lemma scanSources_errorCount (l : List (BlokState α ε)) :
    (scanSources l).errorCount =
      l.countP (fun x => !x.loading && x.error.isSome) := by
  unfold scanSources
  rw [foldl_scanStep_errorCount]
  simp

lemma scanSources_firstError_allError (hd : BlokState α ε)
    (rest : List (BlokState α ε)) (h1 : hd.loading = false)
    (h2 : hd.error.isSome = true) :
    (scanSources (hd :: rest)).firstError = hd.error := by
  unfold scanSources
  rw [List.foldl_cons, foldl_scanStep_firstError_some]
  · rw [scanStep_firstError]
    simp [h1, h2]
  · rw [scanStep_firstError]
    simp [h1, h2]

lemma handleChange_allError {sources : List (BlokState JVal ε)}
    {sel : List JVal → JVal → JVal} {s : BlokState JVal ε}
    (hcond : (scanSources sources).errorCount = sources.length) :
    handleChange sources sel s =
      setUpdaterThrow s (scanSources sources).firstError := by
  unfold handleChange
  rw [if_pos hcond]

lemma handleChange_someLoading {sources : List (BlokState JVal ε)}
    {sel : List JVal → JVal → JVal} {s : BlokState JVal ε}
    (h1 : (scanSources sources).errorCount ≠ sources.length)
    (h2 : (scanSources sources).loadingCount ≠ 0) :
    handleChange sources sel s =
      ((setFutureStart s).1, (setFutureStart s).2.1) := by
  unfold handleChange
  rw [if_neg h1, if_pos h2]

lemma handleChange_select {sources : List (BlokState JVal ε)}
    {sel : List JVal → JVal → JVal} {s : BlokState JVal ε}
    (h1 : (scanSources sources).errorCount ≠ sources.length)
    (h2 : (scanSources sources).loadingCount = 0) :
    handleChange sources sel s =
      setValue (fun a b => a == b) s
        (if shallow (sel (sources.map fun x => x.data) s.data) s.data
          then s.data
          else sel (sources.map fun x => x.data) s.data) := by
  unfold handleChange
  rw [if_neg h1, if_neg (by simp [h2])]

lemma setUpdaterThrow_fields (s : BlokState α ε) (e : Option ε) :
    (setUpdaterThrow s e).1.error = e ∧ (setUpdaterThrow s e).1.loading = false := by
  unfold setUpdaterThrow changeState
  split_ifs <;> simp_all

lemma setFutureStart_fields (s : BlokState α ε) :
    (setFutureStart s).1.loading = true ∧ (setFutureStart s).1.error = none := by
  unfold setFutureStart changeState
  split_ifs <;> simp_all

lemma setValue_data_self (cmp : α → α → Bool) (s : BlokState α ε) :
    (setValue cmp s s.data).1.data = s.data := by
  unfold setValue changeState
  rw [ite_self]
  split_ifs <;> simp

/-- C5: derived-container propagation, by the three branches of
`from.handleChange`.  (1) If every source is settled in error, the derived
container's `error` becomes the first source's error — the first encountered
in the left-to-right scan — and it leaves loading.  (2) If any source is
loading, the derived container reports `loading = true` (the never-settling
`forever` future keeps it there until all sources leave loading and
`handleChange` runs again).  (3) Otherwise the selector runs with the current
source values and the previous derived value, and whenever its fresh result is
`shallow`-equal to the previous value, the previous `data` reference is
kept. -/
theorem from_handleChange_propagation (sources : List (BlokState JVal ε))
    (sel : List JVal → JVal → JVal) (s : BlokState JVal ε) :
    (∀ hd rest, sources = hd :: rest →
      (∀ y ∈ sources, y.loading = false ∧ y.error.isSome = true) →
      (handleChange sources sel s).1.error = hd.error ∧
      (handleChange sources sel s).1.loading = false) ∧
    ((∃ y ∈ sources, y.loading = true) →
      (handleChange sources sel s).1.loading = true ∧
      (handleChange sources sel s).1.error = none) ∧
    ((∀ y ∈ sources, y.loading = false) → (∃ y ∈ sources, y.error = none) →
      shallow (sel (sources.map fun x => x.data) s.data) s.data = true →
      (handleChange sources sel s).1.data = s.data) := by
  refine ⟨?_, ?_, ?_⟩
  · rintro hd rest rfl hall
    have hcond : (scanSources (hd :: rest)).errorCount =
        (hd :: rest).length := by
      rw [scanSources_errorCount]
      refine List.countP_eq_length.mpr fun y hy => ?_
      have h := hall y hy
      simp [h.1, h.2]
    rw [handleChange_allError hcond,
      scanSources_firstError_allError hd rest (hall hd (by simp)).1
        (hall hd (by simp)).2]
    exact setUpdaterThrow_fields s hd.error
  · rintro ⟨y, hy, hyl⟩
    have h2 : (scanSources sources).loadingCount ≠ 0 := by
      rw [scanSources_loadingCount]
      have : 0 < sources.countP (fun x => x.loading) :=
        List.countP_pos_iff.mpr ⟨y, hy, by simp [hyl]⟩
      omega
    have h1 : (scanSources sources).errorCount ≠ sources.length := by
      rw [scanSources_errorCount]
      intro heq
      have := List.countP_eq_length.mp heq y hy
      simp [hyl] at this
    rw [handleChange_someLoading h1 h2]
    exact ⟨(setFutureStart_fields s).1, (setFutureStart_fields s).2⟩
  · intro hnl hne hshallow
    have h2 : (scanSources sources).loadingCount = 0 := by
      rw [scanSources_loadingCount]
      exact List.countP_eq_zero.mpr fun y hy => by simp [hnl y hy]
    have h1 : (scanSources sources).errorCount ≠ sources.length := by
      rw [scanSources_errorCount]
      intro heq
      obtain ⟨y, hy, hye⟩ := hne
      have := List.countP_eq_length.mp heq y hy
      simp [hye] at this
    rw [handleChange_select h1 h2, if_pos hshallow]
    exact setValue_data_self _ s

/-- C5 witness: (1) two settled errored sources propagate the first error 7;
(2) a loading source forces the derived container into loading; (3) with one
clean source and an identity-of-previous selector, the previous derived value
reference is kept. -/
theorem from_handleChange_propagation_witness :
    (handleChange
        [⟨.prim 1 true, false, some 7, 0⟩, ⟨.prim 2 true, false, some 8, 0⟩]
        (fun _ prev => prev)
        (⟨.prim 0 true, false, none, 0⟩ : BlokState JVal Nat)).1.error =
      some 7 ∧
    (handleChange [⟨.prim 1 true, true, none, 0⟩] (fun _ prev => prev)
        (⟨.prim 0 true, false, none, 0⟩ : BlokState JVal Nat)).1.loading =
      true ∧
    (handleChange [⟨.prim 1 true, false, none, 0⟩] (fun _ prev => prev)
        (⟨.prim 0 true, false, none, 0⟩ : BlokState JVal Nat)).1.data =
      .prim 0 true :=
  ⟨((from_handleChange_propagation
      [⟨.prim 1 true, false, some 7, 0⟩, ⟨.prim 2 true, false, some 8, 0⟩]
      (fun _ prev => prev) ⟨.prim 0 true, false, none, 0⟩).1
      ⟨.prim 1 true, false, some 7, 0⟩ [⟨.prim 2 true, false, some 8, 0⟩]
      rfl (by decide)).1,
    ((from_handleChange_propagation [⟨.prim 1 true, true, none, 0⟩]
      (fun _ prev => prev) ⟨.prim 0 true, false, none, 0⟩).2.1
      ⟨⟨.prim 1 true, true, none, 0⟩, by decide, rfl⟩).1,
    (from_handleChange_propagation [⟨.prim 1 true, false, none, 0⟩]
      (fun _ prev => prev) ⟨.prim 0 true, false, none, 0⟩).2.2
      (by decide) ⟨⟨.prim 1 true, false, none, 0⟩, by decide, rfl⟩
      (by decide)⟩

/-- C6 (exhibits the defect): starting from an idle context, a
droppable-guarded async `set` proceeds (conjunct 1) and its settlement updates
the data (conjunct 2) — but the settlement never invokes the controller's
`done()`: in the mode-less inner invocation that performed the update, the
local `cc` the settlement handlers test was never assigned.  The in-flight
token therefore survives settlement (conjunct 3) and the next
droppable-guarded `set` is dropped although nothing is in flight (conjunct 4),
contradicting the claim that `done()` runs exactly once on settlement so that
a subsequent guarded `set` proceeds again.  Conjuncts 5 and 6 record the parts
the code does satisfy: the callback runs iff no update is in flight, and
`done()` itself would clear a matching token. -/
theorem droppable_done_never_invoked :
    ((setAsyncDroppable (⟨⟨0, false, none, 0⟩, ⟨none⟩, 100, none⟩ :
        GuardedBlok Nat Nat)).2 = true) ∧
    ((settleGuardedResolve (setAsyncDroppable (⟨⟨0, false, none, 0⟩, ⟨none⟩,
        100, none⟩ : GuardedBlok Nat Nat)).1 5).st.data = 5) ∧
    ((settleGuardedResolve (setAsyncDroppable (⟨⟨0, false, none, 0⟩, ⟨none⟩,
        100, none⟩ : GuardedBlok Nat Nat)).1 5).ctx.updatingToken =
      some 100) ∧
    ((setAsyncDroppable (settleGuardedResolve (setAsyncDroppable
        (⟨⟨0, false, none, 0⟩, ⟨none⟩, 100, none⟩ : GuardedBlok Nat Nat)).1
        5)).2 = false) ∧
    (∀ (ctx : CCtx) (tok : Nat),
      (droppableMode ctx tok).2.1 = ctx.updatingToken.isNone) ∧
    (∀ t : Nat, DropController.doneFn ⟨t⟩ ⟨some t⟩ = ⟨none⟩) := by
  refine ⟨by decide, by decide, by decide, by decide, ?_, ?_⟩
  · rintro ⟨tk⟩ tok
    cases tk <;> rfl
  · intro t
    simp [DropController.doneFn]

/-- C8 counterexample: `from`'s `dispose` *replaces* the base `dispose`, so on
a derived container whose own emitter holds a listener (id 7), whose base is
undisposed and whose auto-refresh timer is scheduled, disposing changes none
of that — the emitter is not cleared and auto-refresh is not halted, refuting
the claim for derived containers. -/
theorem from_dispose_leaves_base_untouched :
    (disposeFrom ⟨⟨⟨[7]⟩, false, true⟩, [[3]], [(0, 3)]⟩).base =
      ⟨⟨[7]⟩, false, true⟩ := by
  decide

/-- C8 (amended): a *plain* container's `dispose` is idempotent, clears the
Emitter, marks the container disposed and halts auto-refresh (no refresh tick
ever fires afterwards).  A *derived* container's `dispose` replaces the base
one: it is idempotent, drains the `unsubscribes` list — invoking each source's
removal closure exactly once, as the singleton-wiring conjunct spells out —
and leaves the base lifecycle (emitter, disposed flag, auto-refresh)
untouched. -/
theorem dispose_semantics (c : CreateLifecycle) (f : FromBlok) :
    (disposeCreate (disposeCreate c) = disposeCreate c) ∧
    (c.disposed = false → (disposeCreate c).changeEmitter.handlers = []) ∧
    (disposeCreate c).disposed = true ∧
    ((refreshTick (disposeCreate c)).2 = false) ∧
    (disposeFrom (disposeFrom f) = disposeFrom f) ∧
    (disposeFrom f).unsubscribes = [] ∧
    (disposeFrom f).base = f.base ∧
    (∀ (base : CreateLifecycle) (hs : List (List Nat)) (i h : Nat),
      disposeFrom ⟨base, hs, [(i, h)]⟩ =
        ⟨base, hs.set i ((hs.getD i []).erase h), []⟩) := by
  refine ⟨?_, ?_, ?_, ?_, ?_, ?_, ?_, ?_⟩
  · unfold disposeCreate
    split_ifs <;> simp_all
  · intro hc
    unfold disposeCreate
    simp [hc]
  · unfold disposeCreate
    split_ifs <;> simp_all
  · unfold disposeCreate refreshTick
    split_ifs <;> simp_all
  · simp [disposeFrom]
  · simp [disposeFrom]
  · simp [disposeFrom]
  · intro base hs i h
    simp [disposeFrom, addAll]

/-- C8 witness: disposing a live plain container (one listener, scheduled
refresh) clears its emitter; double-disposing a derived container equals
disposing it once. -/
theorem dispose_semantics_witness :
    (disposeCreate ⟨⟨[4]⟩, false, true⟩).changeEmitter.handlers =
      ([] : List Nat) ∧
    disposeFrom (disposeFrom ⟨⟨⟨[7]⟩, false, true⟩, [[3]], [(0, 3)]⟩) =
      disposeFrom ⟨⟨⟨[7]⟩, false, true⟩, [[3]], [(0, 3)]⟩ :=
  ⟨(dispose_semantics ⟨⟨[4]⟩, false, true⟩
      ⟨⟨⟨[]⟩, false, false⟩, [], []⟩).2.1 rfl,
    (dispose_semantics ⟨⟨[]⟩, false, false⟩
      ⟨⟨⟨[7]⟩, false, true⟩, [[3]], [(0, 3)]⟩).2.2.2.2.1⟩

lemma entryOf_scrubSlot (env : Nat → α) (p : Nat × HydSlot α) :
    entryOf env (scrubSlot p) = entryOf env p := by
  rcases p with ⟨k, d, ms, b⟩
  cases ms with
  | none => rfl
  | some l =>
    simp only [entryOf, scrubSlot, Option.map_some']
    rw [List.filterMap_map]
    rfl

/-- C9: hydration-store dehydration.  (1) A second `dehydrate()` with no
intervening change returns the identical cached collection (same array
identity, same contents).  (2) A data change on an attached container (neither
loading nor errored, new data different from the listener's `prevData`) clears
the cache and leaves the table alone, so the next `dehydrate()` recomputes the
collection from the containers' current data.  (3) A slot holding a live
container back-reference contributes that container's *current* data to the
snapshot.  (4) The rebuilt snapshot is entirely independent of the pre-seeded
slot values: scrubbing them all changes nothing. -/
theorem dehydrate_cache_behaviour (h : HydState α) (env : Nat → α) :
    (dehydrate (dehydrate h env).1 env =
      ((dehydrate h env).1, (dehydrate h env).2)) ∧
    (∀ pd cd, pd ≠ cd →
      (handleBlokChange h false false pd cd).1.lastDehyratedData = none ∧
      (handleBlokChange h false false pd cd).1.hydratedData =
        h.hydratedData ∧
      (dehydrate (handleBlokChange h false false pd cd).1 env).2.2 =
        buildCollection h.hydratedData env) ∧
    (∀ k slot b, (k, slot) ∈ h.hydratedData → slot.members = none →
      slot.blokId = some b →
      (k, DehydEntry.dataEntry (env b)) ∈
        buildCollection h.hydratedData env) ∧
    (buildCollection (h.hydratedData.map scrubSlot) env =
      buildCollection h.hydratedData env) := by
  refine ⟨?_, ?_, ?_, ?_⟩
  · rcases hc : h.lastDehyratedData with _ | c <;> simp [dehydrate, hc]
  · intro pd cd hne
    refine ⟨?_, ?_, ?_⟩ <;> simp [handleBlokChange, hne, dehydrate]
  · intro k slot b hmem hm hb
    exact List.mem_filterMap.mpr ⟨(k, slot), hmem, by simp [entryOf, hm, hb]⟩
  · unfold buildCollection
    rw [List.filterMap_map]
    have hfun : entryOf env ∘ scrubSlot = entryOf env :=
      funext (entryOf_scrubSlot env)
    rw [hfun]

/-- C9 witness: a one-slot store whose slot carries both a stale pre-seeded
value 9 and a live container (id 0) whose current data is 42. -/
theorem dehydrate_cache_behaviour_witness :
    (dehydrate
        (dehydrate (⟨[(1, ⟨some 9, none, some 0⟩)], none, 0⟩ : HydState Nat)
          (fun _ => 42)).1 (fun _ => 42) =
      ((dehydrate (⟨[(1, ⟨some 9, none, some 0⟩)], none, 0⟩ : HydState Nat)
          (fun _ => 42)).1,
        (dehydrate (⟨[(1, ⟨some 9, none, some 0⟩)], none, 0⟩ : HydState Nat)
          (fun _ => 42)).2)) ∧
    (handleBlokChange
        (⟨[(1, ⟨some 9, none, some 0⟩)], some (5, []), 6⟩ : HydState Nat)
        false false 0 1).1.lastDehyratedData = none ∧
    (1, DehydEntry.dataEntry 42) ∈
      buildCollection [(1, (⟨some 9, none, some 0⟩ : HydSlot Nat))]
        (fun _ => 42) :=
  ⟨(dehydrate_cache_behaviour ⟨[(1, ⟨some 9, none, some 0⟩)], none, 0⟩
      (fun _ => 42)).1,
    ((dehydrate_cache_behaviour
        ⟨[(1, ⟨some 9, none, some 0⟩)], some (5, []), 6⟩
        (fun _ => 42)).2.1 0 1 (by decide)).1,
    (dehydrate_cache_behaviour ⟨[(1, ⟨some 9, none, some 0⟩)], none, 0⟩
      (fun _ => 42)).2.2.1 1 ⟨some 9, none, some 0⟩ 0 (by simp) rfl rfl⟩

lemma mem_addChange {d c : Nat} {l : List Nat} :
    d ∈ addChange c l ↔ d = c ∨ d ∈ l := by
  unfold addChange
  split_ifs with hc
  · constructor
    · exact Or.inr
    · rintro (rfl | hd)
      exacts [hc, hd]
  · simp [or_comm]

lemma addChange_nodup {c : Nat} {l : List Nat} (h : l.Nodup) :
    (addChange c l).Nodup := by
  unfold addChange
  split_ifs with hc
  · exact h
  · rw [List.nodup_append]
    refine ⟨h, List.nodup_singleton c, ?_⟩
    intro x hx hxc
    simp only [List.mem_singleton] at hxc
    exact hc (hxc ▸ hx)

lemma addAll_cons (c : Nat) (t acc : List Nat) :
    addAll (c :: t) acc = addAll t (addChange c acc) := rfl

lemma addAll_append (l1 l2 acc : List Nat) :
    addAll (l1 ++ l2) acc = addAll l2 (addAll l1 acc) := by
  simp [addAll, List.foldl_append]

lemma mem_addAll {d : Nat} (l acc : List Nat) :
    d ∈ addAll l acc ↔ d ∈ l ∨ d ∈ acc := by
  induction l generalizing acc with
  | nil => simp [addAll]
  | cons c t ih =>
    rw [addAll_cons, ih, mem_addChange]
    simp only [List.mem_cons]
    tauto

lemma addAll_nodup (l : List Nat) {acc : List Nat} (h : acc.Nodup) :
    (addAll l acc).Nodup := by
  induction l generalizing acc with
  | nil => exact h
  | cons c t ih => exact ih (addChange_nodup h)

/-- Inside an open transaction (`mutationCount ≠ 0`), a non-throwing body
emits nothing: it only folds the containers it mutates into the pending set,
leaves the counter alone, and returns normally. -/
lemma runProg_in_batch (p : Prog) (s : Sys) (hc : s.mutationCount ≠ 0)
    (hn : noThrow p = true) :
    runProg p s =
      ({ s with batchChanges := addAll (touched p) s.batchChanges }, none) := by
  induction p generalizing s with
  | mutate c => simp [runProg, notify, touched, addAll, hc]
  | throwErr e => simp [noThrow] at hn
  | seq p q ihp ihq =>
    rw [noThrow, Bool.and_eq_true] at hn
    have h1 := ihp s hc hn.1
    have h2 := ihq { s with batchChanges := addAll (touched p) s.batchChanges }
      (by simpa using hc) hn.2
    simp only [runProg, h1, h2, touched, addAll_append]
  | batch p ih =>
    rw [noThrow] at hn
    simp only [runProg]
    rw [if_neg hc]
    rw [ih _ (by simp) hn]
    simp only []
    rw [if_neg (by simpa using hc)]
    simp [touched]

lemma foldl_notify_emits (l : List Nat) (acc : Sys)
    (h : acc.mutationCount = 0) :
    l.foldl (fun a c => notify c a) acc =
      { acc with emitted := acc.emitted ++ l } := by
  induction l generalizing acc with
  | nil => simp
  | cons c t ih =>
    rw [List.foldl_cons]
    have h1 : notify c acc = { acc with emitted := acc.emitted ++ [c] } := by
      simp [notify, h]
    rw [h1, ih _ (by simp [h])]
    simp

lemma flushChanges_emits (s : Sys) (h : s.mutationCount = 0) :
    flushChanges s = { s with emitted := s.emitted ++ s.batchChanges } := by
  unfold flushChanges
  have := foldl_notify_emits s.batchChanges s h
  exact this

/-- C2: batch coalescing.  Running a non-throwing body `p` under the outermost
`batch` from an idle system: nothing is emitted while the body runs; at the
end of the outermost invocation the pending set is flushed once, the counter
is back at zero — and the container `c`, however many mutations `p` performed
on it (at least one, `c ∈ touched p`), receives exactly one notification:
the flushed pending set is duplicate-free and counts `c` exactly once. -/
theorem batch_coalesces (p : Prog) (s : Sys) (c : Nat)
    (hc : s.mutationCount = 0) (hn : noThrow p = true)
    (ht : c ∈ touched p) :
    runProg (.batch p) s =
      ({ mutationCount := 0
         batchChanges := addAll (touched p) []
         emitted := s.emitted ++ addAll (touched p) [] }, none) ∧
    (addAll (touched p) []).count c = 1 := by
  constructor
  · simp only [runProg]
    rw [if_pos hc]
    rw [runProg_in_batch p _ (by simp) hn]
    simp only []
    rw [if_pos (by simp [hc])]
    rw [flushChanges_emits _ (by simp [hc])]
    simp [hc]
  · exact List.count_eq_one_of_mem (addAll_nodup _ List.nodup_nil)
      ((mem_addAll _ _).mpr (Or.inl ht))

/-- C2 witness: five mutations of container 3, two of them inside a nested
batch, from an idle system: one flush, one notification for container 3. -/
theorem batch_coalesces_witness :
    runProg
        (.batch (.seq (.seq (.mutate 3) (.mutate 3))
          (.batch (.seq (.mutate 3) (.seq (.mutate 3) (.mutate 3))))))
        ⟨0, [], []⟩ =
      (⟨0, [3], [3]⟩, none) ∧
    (addAll
        (touched (.seq (.seq (.mutate 3) (.mutate 3))
          (.batch (.seq (.mutate 3) (.seq (.mutate 3) (.mutate 3)))))) []).count 3 =
      1 := by
  have h := batch_coalesces
    (.seq (.seq (.mutate 3) (.mutate 3))
      (.batch (.seq (.mutate 3) (.seq (.mutate 3) (.mutate 3)))))
    ⟨0, [], []⟩ 3 rfl (by decide) (by decide)
  exact ⟨by rw [h.1]; decide, h.2⟩

/-- C10: a throwing body inside `batch`.  The mutations `p1` performed before
the throw are all flushed exactly once when the outermost invocation exits,
the exception `e` propagates to the caller, the counter is back at zero — and
(second conjunct) with the counter at zero any later non-batched `notify`
emits immediately. -/
theorem batch_flushes_despite_throw (p1 p2 : Prog) (e : Nat) (s : Sys)
    (hc : s.mutationCount = 0) (hn : noThrow p1 = true) :
    runProg (.batch (.seq p1 (.seq (.throwErr e) p2))) s =
      ({ mutationCount := 0
         batchChanges := addAll (touched p1) []
         emitted := s.emitted ++ addAll (touched p1) [] }, some e) ∧
    (∀ d (acc : Sys), acc.mutationCount = 0 →
      notify d acc = { acc with emitted := acc.emitted ++ [d] }) := by
  constructor
  · simp only [runProg]
    rw [if_pos hc]
    rw [runProg_in_batch p1 _ (by simp) hn]
    simp only [runProg]
    rw [if_pos (by simp [hc])]
    rw [flushChanges_emits _ (by simp [hc])]
    simp [hc]
  · intro d acc h
    simp [notify, h]

/-- C10 witness: two mutations of container 2, then a throw of 7, then an
unreached mutation; the pending notification for 2 still flushes, the
exception propagates, and a later bare notify emits at once. -/
theorem batch_flushes_despite_throw_witness :
    runProg (.batch (.seq (.seq (.mutate 2) (.mutate 2))
        (.seq (.throwErr 7) (.mutate 4)))) ⟨0, [], []⟩ =
      (⟨0, [2], [2]⟩, some 7) ∧
    notify 9 ⟨0, [2], [2]⟩ = ⟨0, [2], [2, 9]⟩ := by
  have h := batch_flushes_despite_throw (.seq (.mutate 2) (.mutate 2)) (.mutate 4) 7
    ⟨0, [], []⟩ rfl (by decide)
  exact ⟨by rw [h.1]; decide,
    (h.2 9 ⟨0, [2], [2]⟩ rfl).trans (by decide)⟩

end Reblok
